import Mathlib

/-!
Shallow embedding of the API route handlers of the storefront-builder
service (`src/app/api/[[...path]]/route.js`): store creation with slug
uniqueness, order creation from a cart, payment initiation and
verification against the payment gateway, and the analytics summary.

JavaScript numbers are modelled as rationals (`ℚ`), dates as `Nat`
timestamps, MongoDB collections as lists in insertion order (insertOne
appends, findOne/updateOne act on the first match), and absent JSON
fields as `Option`.  JavaScript falsiness of a number is `= 0`, of a
string is `= ""`, both modelled explicitly where the source relies on it.
-/

deriving instance DecidableEq for Except

namespace ShopifyClone

/-- An HTTP JSON error response `{error}, {status}` as produced by the
route handlers. -/
structure ErrorResponse where
  status : Nat
  error : String
deriving DecidableEq, Repr

/-- A document of the `stores` collection. -/
structure Store where
  id : String
  name : String
  slug : String
  description : String
  domain : Option String
  isActive : Bool
  createdAt : Nat
  updatedAt : Nat
deriving DecidableEq, Repr

/-- A document of the `products` collection. -/
structure Product where
  id : String
  name : String
  slug : String
  description : String
  price : ℚ
  inventory : Int
  isActive : Bool
  storeId : String
  createdAt : Nat
  updatedAt : Nat
deriving DecidableEq, Repr

/-- The customer-info object embedded in an order; the handler never
inspects its fields. -/
structure CustomerInfo where
  name : Option String := none
  email : Option String := none
  phone : Option String := none
deriving DecidableEq, Repr

/-- An order line snapshotted at creation time. -/
structure OrderItem where
  productId : String
  productName : String
  quantity : ℚ
  price : ℚ
  total : ℚ
deriving DecidableEq, Repr

/-- A document of the `orders` collection. -/
structure Order where
  id : String
  orderNumber : String
  storeId : String
  items : List OrderItem
  total : ℚ
  status : String
  customerInfo : CustomerInfo
  paymentStatus : Option String := none
  razorpayOrderId : Option String := none
  razorpayPaymentId : Option String := none
  paymentCompletedAt : Option Nat := none
  createdAt : Nat
  updatedAt : Nat
deriving DecidableEq, Repr

/-- The three logical collections of the persistence layer. -/
structure Db where
  stores : List Store
  products : List Product
  orders : List Order
deriving DecidableEq, Repr

/-! ### Slug generation (`generateSlug`, route.js lines 22-27) -/

/-- Characters the regex class `[a-z0-9]` accepts. -/
def isSlugChar (c : Char) : Bool :=
  ('a' ≤ c && c ≤ 'z') || ('0' ≤ c && c ≤ '9')

/-- `.replace(/[^a-z0-9]+/g, '-')`: each maximal run of characters
outside `[a-z0-9]` becomes a single `'-'`. -/
def collapseNonAlnum : List Char → List Char
  | [] => []
  | c :: cs =>
    let rest := collapseNonAlnum cs
    if isSlugChar c then c :: rest
    else
      match rest with
      | '-' :: _ => rest
      | _ => '-' :: rest

/-- Drop one leading `'-'` if present (half of `.replace(/(^-|-$)/g, '')`). -/
def stripLeadDash : List Char → List Char
  | '-' :: cs => cs
  | cs => cs

/-- `.replace(/(^-|-$)/g, '')`: remove one leading and one trailing dash. -/
def stripEdgeDashes (l : List Char) : List Char :=
  ((stripLeadDash l).reverse |> stripLeadDash).reverse

/-- `generateSlug`: lowercase, collapse non-alphanumeric runs to `'-'`,
strip edge dashes.  The source's `toLowerCase` agrees with `Char.toLower`
on the ASCII range this service uses. -/
def generateSlug (name : String) : String :=
  String.mk (stripEdgeDashes (collapseNonAlnum (name.data.map Char.toLower)))

/-! ### Store creation (`POST /api/stores`, route.js lines 417-446) -/

/-- `x || ''` on an optional string field. -/
def jsStrOrEmpty (s : Option String) : String :=
  match s with
  | some d => d
  | none => ""

/-- `x || null` on an optional string field (an empty string is falsy). -/
def jsStrOrNull (s : Option String) : Option String :=
  match s with
  | some d => if d = "" then none else some d
  | none => none

/-- `POST /api/stores`: validates the name, derives the slug, rejects a
duplicate slug (`findOne({ slug })`, no `isActive` filter), otherwise
inserts the new store.  Returns the handler's result together with the
resulting database. -/
def createStore (db : Db) (name : String) (description : Option String)
    (domain : Option String) (newId : String) (now : Nat) :
    Except ErrorResponse Store × Db :=
  if name = "" then (.error ⟨400, "Store name is required"⟩, db)
  else
    let slug := generateSlug name
    if (db.stores.find? (fun s => s.slug == slug)).isSome then
      (.error ⟨400, "Store name already taken"⟩, db)
    else
      let newStore : Store :=
        { id := newId, name, slug, description := jsStrOrEmpty description,
          domain := jsStrOrNull domain, isActive := true,
          createdAt := now, updatedAt := now }
      (.ok newStore, { db with stores := db.stores ++ [newStore] })

/-! ### Order creation (`POST /api/orders/:storeId`, route.js lines 499-565) -/

/-- `validateStoreAccess`: the store resolves with `isActive: true`. -/
def validateStoreAccess (db : Db) (storeId : String) : Bool :=
  db.stores.any (fun s => s.id == storeId && s.isActive)

/-- One entry of the request's `items` array. -/
structure OrderReqItem where
  productId : String
  quantity : ℚ
deriving DecidableEq, Repr

/-- The JSON body of `POST /api/orders/:storeId`; `items = none` models a
missing or non-array value. -/
structure OrderBody where
  items : Option (List OrderReqItem)
  customerInfo : Option CustomerInfo
  total : Option ℚ
deriving DecidableEq, Repr

/-- `x || d` on an optional numeric field: `0` is falsy in JavaScript, so
a supplied `0` also falls back to the default. -/
def jsNumOr (x : Option ℚ) (d : ℚ) : ℚ :=
  match x with
  | some t => if t = 0 then d else t
  | none => d

/-- The `items.map(...)` loop of the handler: snapshot each product's
name/price, accumulate `calculatedTotal`.  When `products.find` misses
(possible only with duplicate product ids in the collection) the source
throws and the outer catch returns a 500. -/
def buildOrderItems (products : List Product) :
    List OrderReqItem → Except ErrorResponse (List OrderItem × ℚ)
  | [] => .ok ([], 0)
  | item :: rest =>
    match products.find? (fun p => p.id == item.productId) with
    | none => .error ⟨500, "Internal server error"⟩
    | some product =>
      let itemTotal := product.price * item.quantity
      match buildOrderItems products rest with
      | .error e => .error e
      | .ok (tail, t) =>
        .ok (⟨item.productId, product.name, item.quantity, product.price,
              itemTotal⟩ :: tail,
             itemTotal + t)

/-- `POST /api/orders/:storeId`: validates the items array and the store,
batch-resolves the referenced products scoped to
`(storeId, isActive: true)`, rejects when the resolved count differs from
`productIds.length`, then snapshots the items and inserts the order.
`newId`/`orderNumber` stand for the generated uuid and time-derived
order number, `now` for `new Date()`. -/
def createOrder (db : Db) (storeId : String) (body : OrderBody)
    (now : Nat) (newId : String) (orderNumber : String) :
    Except ErrorResponse Order × Db :=
  match body.items with
  | none => (.error ⟨400, "Order items are required"⟩, db)
  | some items =>
    if items.isEmpty then (.error ⟨400, "Order items are required"⟩, db)
    else if !(validateStoreAccess db storeId) then
      (.error ⟨404, "Store not found"⟩, db)
    else
      let productIds := items.map (·.productId)
      let products := db.products.filter
        (fun p => productIds.contains p.id && p.storeId == storeId && p.isActive)
      if products.length ≠ productIds.length then
        (.error ⟨400, "One or more products not found"⟩, db)
      else
        match buildOrderItems products items with
        | .error e => (.error e, db)
        | .ok (orderItems, calculatedTotal) =>
          let newOrder : Order :=
            { id := newId, orderNumber, storeId, items := orderItems,
              total := jsNumOr body.total calculatedTotal,
              status := "pending",
              customerInfo := body.customerInfo.getD {},
              createdAt := now, updatedAt := now }
          (.ok newOrder, { db with orders := db.orders ++ [newOrder] })

/-! ### Payment initiation (`POST /api/payment/create-order`,
route.js lines 569-608) -/

/-- Truthiness test of an optional JSON number (`!amount`). -/
def jsFalsyNum (x : Option ℚ) : Bool :=
  match x with
  | none => true
  | some t => t == 0

/-- Truthiness test of an optional JSON string (`!receipt`). -/
def jsFalsyStr (s : Option String) : Bool :=
  match s with
  | none => true
  | some t => t == ""

/-- `Math.round`: round half toward positive infinity. -/
def jsMathRound (x : ℚ) : Int := Int.floor (x + 1 / 2)

/-- The order-creation request the handler passes to the payment gateway. -/
structure GatewayOrderRequest where
  amount : Int
  currency : String
  receipt : String
deriving DecidableEq, Repr

/-- `POST /api/payment/create-order`: the local validation is
`if (!amount || !receipt)`; past it the handler contacts the gateway with
the amount converted to minor units via `Math.round(amount * 100)`. -/
def createPaymentOrder (amount : Option ℚ) (currency : String)
    (receipt : Option String) : Except ErrorResponse GatewayOrderRequest :=
  if jsFalsyNum amount || jsFalsyStr receipt then
    .error ⟨400, "Amount and receipt are required"⟩
  else
    .ok { amount := jsMathRound ((match amount with
            | some a => a
            | none => 0) * 100),
          currency, receipt := jsStrOrEmpty receipt }

/-! ### Payment verification (`POST /api/payment/verify`,
route.js lines 609-672) -/

/-- `$set` fields of the verified-payment update. -/
def setPaid (oid pid : String) (now : Nat) (o : Order) : Order :=
  { o with status := "paid", paymentStatus := some "completed",
           razorpayOrderId := some oid, razorpayPaymentId := some pid,
           paymentCompletedAt := some now, updatedAt := now }

/-- MongoDB `updateOne`: rewrite the first matching element; `none` when
nothing matches (`matchedCount === 0`). -/
def updateFirst (p : α → Bool) (f : α → α) : List α → Option (List α)
  | [] => none
  | x :: xs =>
    if p x then some (f x :: xs)
    else (updateFirst p f xs).map (x :: ·)

/-- `POST /api/payment/verify`: presence check on the three gateway
fields, HMAC-SHA256 signature comparison, then a single `updateOne` on
`(id: orderId, storeId)`.  The Node `crypto` HMAC is external code, so it
enters as the function parameter `hmacHex` (key → message → hex digest)
applied to the server-held `secret`. -/
def verifyPayment (hmacHex : String → String → String) (secret : String)
    (db : Db) (razorpayOrderId razorpayPaymentId razorpaySignature : Option String)
    (orderId storeId : String) (now : Nat) :
    Except ErrorResponse Unit × Db :=
  if jsFalsyStr razorpayOrderId || jsFalsyStr razorpayPaymentId
      || jsFalsyStr razorpaySignature then
    (.error ⟨400, "Missing payment verification parameters"⟩, db)
  else
    let oid := jsStrOrEmpty razorpayOrderId
    let pid := jsStrOrEmpty razorpayPaymentId
    let generatedSignature := hmacHex secret (oid ++ "|" ++ pid)
    if generatedSignature ≠ jsStrOrEmpty razorpaySignature then
      (.error ⟨400, "Invalid payment signature"⟩, db)
    else
      match updateFirst (fun o => o.id == orderId && o.storeId == storeId)
          (setPaid oid pid now) db.orders with
      | none => (.error ⟨404, "Order not found"⟩, db)
      | some orders => (.ok (), { db with orders })

/-! ### Analytics summary (`GET /api/analytics/:storeId`,
route.js lines 162-298) -/

/-- `status: { $in: ['paid', 'completed'] }`. -/
def isCompletedStatus (s : String) : Bool :=
  s == "paid" || s == "completed"

/-- `Number.prototype.toFixed(1)` viewed as a rational: round to the
nearest tenth, half away from zero (the arguments here are nonnegative). -/
def jsToFixed1 (x : ℚ) : ℚ := (Int.floor (x * 10 + 1 / 2) : ℚ) / 10

/-- The `summary` object of the analytics report. -/
structure AnalyticsSummary where
  totalOrders : Nat
  totalRevenue : ℚ
  completedOrders : Nat
  pendingOrders : Nat
  totalProducts : Nat
  conversionRate : ℚ
deriving DecidableEq, Repr

/-- `GET /api/analytics/:storeId` summary block: store-existence check,
window-scoped counts (`createdAt: { $gte: startDate }`), revenue over
paid/completed orders, and the conversion rate guarded against
division by zero.  `startDate` stands for `now − periodDays`. -/
def computeAnalyticsSummary (db : Db) (storeId : String) (startDate : Nat) :
    Except ErrorResponse AnalyticsSummary :=
  if !(validateStoreAccess db storeId) then .error ⟨404, "Store not found"⟩
  else
    let inWindow := fun (o : Order) =>
      o.storeId == storeId && decide (startDate ≤ o.createdAt)
    let totalOrders := (db.orders.filter inWindow).length
    let completedOrders :=
      (db.orders.filter (fun o => inWindow o && isCompletedStatus o.status)).length
    let pendingOrders :=
      (db.orders.filter (fun o => inWindow o && o.status == "pending")).length
    let totalRevenue :=
      ((db.orders.filter (fun o => inWindow o && isCompletedStatus o.status)).map
        (·.total)).sum
    let totalProducts :=
      (db.products.filter (fun p => p.storeId == storeId && p.isActive)).length
    .ok { totalOrders, totalRevenue, completedOrders, pendingOrders, totalProducts,
          conversionRate :=
            if totalOrders > 0 then
              jsToFixed1 (((completedOrders : ℚ) / (totalOrders : ℚ)) * 100)
            else 0 }

/-! ### Concrete test data used by the witness and counterexample
theorems -/

/-- The store created by a request named "Acme Store". -/
def storeA : Store :=
  { id := "s1", name := "Acme Store", slug := "acme-store", description := "",
    domain := none, isActive := true, createdAt := 0, updatedAt := 0 }

/-- A database holding only `storeA`. -/
def dbA : Db := ⟨[storeA], [], []⟩

/-- A soft-deleted store whose slug is "acme". -/
def storeInactive : Store :=
  { id := "s1", name := "Acme", slug := "acme", description := "",
    domain := none, isActive := false, createdAt := 0, updatedAt := 0 }

/-- A database holding only the soft-deleted store. -/
def dbInactive : Db := ⟨[storeInactive], [], []⟩

/-- A pending order awaiting payment. -/
def orderPending : Order :=
  { id := "o1", orderNumber := "n1", storeId := "s1", items := [], total := 20,
    status := "pending", customerInfo := {}, createdAt := 0, updatedAt := 0 }

/-- A database holding only the pending order. -/
def dbOrder : Db := ⟨[], [], [orderPending]⟩

/-- An active product of `storeA` priced 10. -/
def prodW : Product :=
  { id := "p1", name := "Widget", slug := "widget", description := "",
    price := 10, inventory := 3, isActive := true, storeId := "s1",
    createdAt := 0, updatedAt := 0 }

/-- A database with `storeA` and its product `prodW`, no orders. -/
def dbW : Db := ⟨[storeA], [prodW], []⟩

/-- The order created from a cart of two Widgets with no explicit total. -/
def orderW : Order :=
  { id := "o1", orderNumber := "n1", storeId := "s1",
    items := [⟨"p1", "Widget", 2, 10, 20⟩], total := 20,
    status := "pending", customerInfo := {}, createdAt := 0, updatedAt := 0 }

/-- `dbW` after inserting `orderW`. -/
def dbW' : Db := ⟨[storeA], [prodW], [orderW]⟩

/-- The same order when the caller supplies the explicit total 7. -/
def orderW7 : Order := { orderW with total := 7 }

/-- `dbW` after inserting `orderW7`. -/
def dbW7' : Db := ⟨[storeA], [prodW], [orderW7]⟩

/-! ### Helper lemmas -/

lemma find?_isSome_of_mem {l : List Store} {s : Store} {p : Store → Bool}
    (hmem : s ∈ l) (hp : p s = true) : (l.find? p).isSome = true :=
  List.find?_isSome.mpr ⟨s, hmem, hp⟩

lemma createStore_ok_elim {db : Db} {name : String} {d dm : Option String}
    {newId : String} {now : Nat} {s : Store} {db' : Db}
    (h : createStore db name d dm newId now = (.ok s, db')) :
    s.slug = generateSlug name ∧ db'.stores = db.stores ++ [s] := by
  unfold createStore at h
  by_cases hn : name = ""
  · rw [if_pos hn] at h
    simp at h
  · rw [if_neg hn] at h
    by_cases hex :
        (db.stores.find? (fun st => st.slug == generateSlug name)).isSome = true
    · simp only [hex, if_true] at h
      simp at h
    · simp only [hex, if_false, Bool.false_eq_true] at h
      simp only [Prod.mk.injEq, Except.ok.injEq] at h
      obtain ⟨hs, hdb⟩ := h
      subst hs
      subst hdb
      exact ⟨rfl, rfl⟩

lemma buildOrderItems_error_eq {products : List Product} :
    ∀ {reqs : List OrderReqItem} {e : ErrorResponse},
      buildOrderItems products reqs = .error e →
      e = ⟨500, "Internal server error"⟩ := by
  intro reqs
  induction reqs with
  | nil =>
    intro e h
    simp [buildOrderItems] at h
  | cons item rest ih =>
    intro e h
    rcases hf : products.find? (fun p => p.id == item.productId) with _ | product
    · rw [buildOrderItems, hf] at h
      exact (Except.error.inj h).symm
    · rw [buildOrderItems, hf] at h
      rcases hb : buildOrderItems products rest with e' | pr
      · rw [hb] at h
        exact (Except.error.inj h) ▸ ih hb
      · rcases pr with ⟨tail, t⟩
        rw [hb] at h
        simp at h

lemma buildOrderItems_ok_spec {products : List Product} :
    ∀ {reqs : List OrderReqItem} {its : List OrderItem} {t : ℚ},
      buildOrderItems products reqs = .ok (its, t) →
      t = (its.map (fun it => it.price * it.quantity)).sum
      ∧ t = (its.map OrderItem.total).sum
      ∧ its.map OrderItem.quantity = reqs.map OrderReqItem.quantity
      ∧ its.map OrderItem.productId = reqs.map OrderReqItem.productId
      ∧ ∀ it ∈ its, it.total = it.price * it.quantity
          ∧ ∃ p, products.find? (fun q => q.id == it.productId) = some p
              ∧ it.price = p.price ∧ it.productName = p.name := by
  intro reqs
  induction reqs with
  | nil =>
    intro its t h
    rw [buildOrderItems] at h
    obtain ⟨h1, h2⟩ := Prod.mk.injEq .. ▸ Except.ok.inj h
    subst h1
    subst h2
    simp
  | cons item rest ih =>
    intro its t h
    rcases hf : products.find? (fun p => p.id == item.productId) with _ | product
    · rw [buildOrderItems, hf] at h
      simp at h
    · rw [buildOrderItems, hf] at h
      rcases hb : buildOrderItems products rest with e' | pr
      · rw [hb] at h
        simp at h
      · rcases pr with ⟨tail, t'⟩
        rw [hb] at h
        obtain ⟨h1, h2⟩ := Prod.mk.injEq .. ▸ Except.ok.inj h
        subst h1
        subst h2
        obtain ⟨ih1, ih2, ih3, ih4, ih5⟩ := ih hb
        refine ⟨?_, ?_, ?_, ?_, ?_⟩
        · rw [List.map_cons, List.sum_cons, ← ih1]
        · rw [List.map_cons, List.sum_cons, ← ih2]
        · rw [List.map_cons, List.map_cons, ih3]
        · rw [List.map_cons, List.map_cons, ih4]
        · intro it hit
          rcases List.mem_cons.mp hit with hh | hh
          · subst hh
            exact ⟨rfl, product, hf, rfl, rfl⟩
          · exact ih5 it hh

lemma createOrder_ok_elim {db : Db} {storeId : String} {body : OrderBody}
    {now : Nat} {newId onum : String} {order : Order} {db' : Db}
    (h : createOrder db storeId body now newId onum = (.ok order, db')) :
    ∃ items orderItems calculatedTotal,
      body.items = some items
      ∧ buildOrderItems (db.products.filter (fun p =>
            (items.map OrderReqItem.productId).contains p.id
            && p.storeId == storeId && p.isActive)) items
          = .ok (orderItems, calculatedTotal)
      ∧ order = { id := newId, orderNumber := onum, storeId := storeId,
                  items := orderItems,
                  total := jsNumOr body.total calculatedTotal,
                  status := "pending",
                  customerInfo := body.customerInfo.getD {},
                  createdAt := now, updatedAt := now }
      ∧ db' = { db with orders := db.orders ++ [order] } := by
  unfold createOrder at h
  rcases hbi : body.items with _ | items
  · rw [hbi] at h
    simp at h
  · rw [hbi] at h
    simp only [] at h
    by_cases hie : items.isEmpty = true
    · rw [if_pos hie] at h
      simp at h
    · rw [if_neg hie] at h
      by_cases hv : (!validateStoreAccess db storeId) = true
      · rw [if_pos hv] at h
        simp at h
      · rw [if_neg hv] at h
        by_cases hlen : (db.products.filter (fun p =>
            (items.map (fun i => i.productId)).contains p.id
            && p.storeId == storeId && p.isActive)).length
            ≠ (items.map (fun i => i.productId)).length
        · rw [if_pos hlen] at h
          simp at h
        · rw [if_neg hlen] at h
          rcases hb : buildOrderItems (db.products.filter (fun p =>
              (items.map (fun i => i.productId)).contains p.id
              && p.storeId == storeId && p.isActive)) items with e | pr
          · rw [hb] at h
            simp at h
          · rcases pr with ⟨oi, ct⟩
            rw [hb] at h
            obtain ⟨h1, h2⟩ := Prod.mk.injEq .. ▸ h
            obtain h1 := Except.ok.inj h1
            refine ⟨items, oi, ct, rfl, hb, h1.symm, ?_⟩
            rw [← h2, h1]

/-! ### Claims about store creation -/

/-- C8 (confirmed): for any two store-creation requests whose names
normalize to the same slug, if the first succeeds then the second attempt
fails with `Conflict` ("Store name already taken") and no second store
document is inserted (the returned database is unchanged). -/
theorem createStore_duplicate_slug_conflict
    (db : Db) (name1 name2 : String) (d1 dm1 d2 dm2 : Option String)
    (id1 id2 : String) (now1 now2 : Nat) (s : Store) (db' : Db)
    (h1 : createStore db name1 d1 dm1 id1 now1 = (.ok s, db'))
    (hslug : generateSlug name2 = generateSlug name1)
    (hn2 : name2 ≠ "") :
    createStore db' name2 d2 dm2 id2 now2
      = (.error ⟨400, "Store name already taken"⟩, db') := by
  obtain ⟨hs, hdb⟩ := createStore_ok_elim h1
  unfold createStore
  rw [if_neg hn2]
  have hmem : s ∈ db'.stores := by
    rw [hdb]
    exact List.mem_append_right _ (List.mem_singleton_self _)
  have hfind : (db'.stores.find? (fun st => st.slug == generateSlug name2)).isSome = true :=
    find?_isSome_of_mem hmem (by rw [hslug, hs]; exact beq_self_eq_true _)
  simp [hfind]

/-- Witness for C8 at a concrete database: creating "Acme Store" and then
"acme store!" (same slug "acme-store") makes the second call fail. -/
theorem createStore_duplicate_slug_conflict_witness :
    createStore dbA "acme store!" none none "s2" 1
      = (.error ⟨400, "Store name already taken"⟩, dbA) :=
  createStore_duplicate_slug_conflict ⟨[], [], []⟩ "Acme Store" "acme store!"
    none none none none "s1" "s2" 0 1 storeA dbA
    (by decide) (by decide) (by decide)

/-- C10 (confirmed): the duplicate-slug check of store creation matches
against every existing store document regardless of `isActive`: a slug
belonging to a soft-deleted (`isActive = false`) store still causes the
creation to be rejected with no insertion. -/
theorem createStore_slug_check_ignores_isActive
    (db : Db) (name : String) (d dm : Option String) (newId : String) (now : Nat)
    (s : Store) (hmem : s ∈ db.stores) (hslug : s.slug = generateSlug name)
    (hinactive : s.isActive = false) (hn : name ≠ "") :
    createStore db name d dm newId now
      = (.error ⟨400, "Store name already taken"⟩, db) := by
  unfold createStore
  rw [if_neg hn]
  have hfind : (db.stores.find? (fun st => st.slug == generateSlug name)).isSome = true :=
    find?_isSome_of_mem hmem (by rw [hslug]; exact beq_self_eq_true _)
  simp [hfind]

/-- Witness for C10: a database holding only the deactivated store with
slug "acme" still rejects a new store named "Acme". -/
theorem createStore_slug_check_ignores_isActive_witness :
    createStore dbInactive "Acme" none none "s2" 1
      = (.error ⟨400, "Store name already taken"⟩, dbInactive) :=
  createStore_slug_check_ignores_isActive dbInactive "Acme" none none "s2" 1
    storeInactive (by decide) (by decide) (by decide) (by decide)

/-! ### Claims about payment initiation -/

/-- Counterexample for C6: a request with the strictly negative amount −5
and a non-empty receipt passes the local validation, so the handler goes
on to contact the gateway (with −500 minor units) instead of failing with
`InvalidArgument`. -/
theorem createPaymentOrder_negative_amount_counterexample :
    createPaymentOrder (some (-5)) "INR" (some "r1")
      = .ok ⟨-500, "INR", "r1"⟩ ∧ (-5 : ℚ) < 0 := by
  constructor
  · unfold createPaymentOrder
    rw [if_neg (by norm_num [jsFalsyNum, jsFalsyStr]; decide)]
    norm_num [jsMathRound, jsStrOrEmpty]
  · norm_num

/-- C6 (corrected): `POST /api/payment/create-order` fails with
`InvalidArgument` exactly when the amount is absent or zero, or the
receipt is absent or empty; a strictly negative amount passes the local
validation and is forwarded to the gateway. -/
theorem createPaymentOrder_validation
    (amount : Option ℚ) (currency : String) (receipt : Option String) :
    createPaymentOrder amount currency receipt
        = .error ⟨400, "Amount and receipt are required"⟩
      ↔ (amount = none ∨ amount = some 0 ∨ receipt = none ∨ receipt = some "") := by
  rcases amount with _ | a <;> rcases receipt with _ | r <;>
    simp [createPaymentOrder, jsFalsyNum, jsFalsyStr] <;> tauto

/-- Witness for C6: an absent amount is rejected with `InvalidArgument`. -/
theorem createPaymentOrder_validation_witness :
    createPaymentOrder none "INR" (some "r1")
      = .error ⟨400, "Amount and receipt are required"⟩ :=
  (createPaymentOrder_validation none "INR" (some "r1")).mpr (Or.inl rfl)

/-! ### Claims about payment verification -/

lemma updateFirst_eq_none {α} {p : α → Bool} {f : α → α} :
    ∀ {l : List α}, updateFirst p f l = none ↔ ∀ x ∈ l, p x = false := by
  intro l
  induction l with
  | nil => simp [updateFirst]
  | cons x xs ih =>
    by_cases hx : p x = true
    · simp [updateFirst, hx]
    · have hx' : p x = false := by simpa using hx
      simp [updateFirst, hx', ih]

lemma updateFirst_append {α} {p : α → Bool} {f : α → α} :
    ∀ (pre : List α) (o : α) (post : List α),
      (∀ x ∈ pre, p x = false) → p o = true →
      updateFirst p f (pre ++ o :: post) = some (pre ++ f o :: post) := by
  intro pre
  induction pre with
  | nil =>
    intro o post _ ho
    simp [updateFirst, ho]
  | cons x xs ih =>
    intro o post hpre ho
    have hx : p x = false := hpre x (List.mem_cons_self _ _)
    rw [List.cons_append, List.cons_append, updateFirst, if_neg (by simp [hx]),
      ih o post (fun y hy => hpre y (List.mem_cons_of_mem _ hy)) ho]
    rfl

/-- Reduction of `verifyPayment` past the presence and signature checks
when all three fields are truthy and the signature matches the HMAC. -/
lemma verifyPayment_matched_reduce
    (hmacHex : String → String → String) (secret : String) (db : Db)
    (oid pid orderId storeId : String) (now : Nat)
    (ho : oid ≠ "") (hp : pid ≠ "")
    (hsig : hmacHex secret (oid ++ "|" ++ pid) ≠ "") :
    verifyPayment hmacHex secret db (some oid) (some pid)
        (some (hmacHex secret (oid ++ "|" ++ pid))) orderId storeId now
      = (match updateFirst (fun o => o.id == orderId && o.storeId == storeId)
            (setPaid oid pid now) db.orders with
         | none => (.error ⟨404, "Order not found"⟩, db)
         | some orders => (.ok (), { db with orders })) := by
  unfold verifyPayment
  rw [if_neg (by simp [jsFalsyStr, ho, hp, hsig])]
  simp [jsStrOrEmpty]

/-- C4 (confirmed): when all three gateway identifiers are present but
the supplied signature differs from the hex HMAC of
`gatewayOrderId + "|" + gatewayPaymentId` under the server-held secret,
verification fails with `SecurityError` ("Invalid payment signature")
and the database — hence every Order — is unchanged. -/
theorem verifyPayment_bad_signature_rejected
    (hmacHex : String → String → String) (secret : String) (db : Db)
    (oid pid sig orderId storeId : String) (now : Nat)
    (ho : oid ≠ "") (hp : pid ≠ "") (hs : sig ≠ "")
    (hneq : sig ≠ hmacHex secret (oid ++ "|" ++ pid)) :
    verifyPayment hmacHex secret db (some oid) (some pid) (some sig)
        orderId storeId now
      = (.error ⟨400, "Invalid payment signature"⟩, db) := by
  unfold verifyPayment
  rw [if_neg (by simp [jsFalsyStr, ho, hp, hs])]
  simp only [jsStrOrEmpty]
  rw [if_pos (Ne.symm hneq)]

/-- Witness for C4: a wrong signature "x" against HMAC value "h" is
rejected and leaves the database untouched. -/
theorem verifyPayment_bad_signature_rejected_witness :
    verifyPayment (fun _ _ => "h") "k" dbA (some "a") (some "b") (some "x")
        "o1" "s1" 5
      = (.error ⟨400, "Invalid payment signature"⟩, dbA) :=
  verifyPayment_bad_signature_rejected (fun _ _ => "h") "k" dbA "a" "b" "x"
    "o1" "s1" 5 (by decide) (by decide) (by decide) (by decide)

/-- C5 (confirmed): when the supplied signature equals the recomputed
HMAC, the handler performs a single update on the first Order matching
`(id = orderId, storeId)`: status becomes "paid", paymentStatus
"completed", both gateway identifiers and the completion timestamp are
stored; when no Order matches, the call fails `NotFound` with the
database unchanged. -/
theorem verifyPayment_valid_signature_marks_paid
    (hmacHex : String → String → String) (secret : String) (db : Db)
    (oid pid orderId storeId : String) (now : Nat)
    (ho : oid ≠ "") (hp : pid ≠ "")
    (hsig : hmacHex secret (oid ++ "|" ++ pid) ≠ "") :
    ((∀ o ∈ db.orders, ¬(o.id = orderId ∧ o.storeId = storeId)) →
      verifyPayment hmacHex secret db (some oid) (some pid)
          (some (hmacHex secret (oid ++ "|" ++ pid))) orderId storeId now
        = (.error ⟨404, "Order not found"⟩, db))
    ∧ (∀ pre o post, db.orders = pre ++ o :: post →
        (∀ x ∈ pre, ¬(x.id = orderId ∧ x.storeId = storeId)) →
        o.id = orderId → o.storeId = storeId →
        verifyPayment hmacHex secret db (some oid) (some pid)
            (some (hmacHex secret (oid ++ "|" ++ pid))) orderId storeId now
          = (.ok (), { db with orders := pre ++ setPaid oid pid now o :: post })
        ∧ (setPaid oid pid now o).status = "paid"
        ∧ (setPaid oid pid now o).paymentStatus = some "completed"
        ∧ (setPaid oid pid now o).razorpayOrderId = some oid
        ∧ (setPaid oid pid now o).razorpayPaymentId = some pid
        ∧ (setPaid oid pid now o).paymentCompletedAt = some now) := by
  constructor
  · intro hnone
    rw [verifyPayment_matched_reduce hmacHex secret db oid pid orderId storeId now ho hp hsig]
    have h0 : updateFirst (fun o => o.id == orderId && o.storeId == storeId)
        (setPaid oid pid now) db.orders = none := by
      rw [updateFirst_eq_none]
      intro x hx
      have := hnone x hx
      simp only [Bool.and_eq_false_iff, beq_eq_false_iff_ne]
      by_cases hid : x.id = orderId
      · exact Or.inr (fun hst => this ⟨hid, hst⟩)
      · exact Or.inl hid
    rw [h0]
  · intro pre o post hsplit hpre hid hst
    rw [verifyPayment_matched_reduce hmacHex secret db oid pid orderId storeId now ho hp hsig]
    have h1 : updateFirst (fun x => x.id == orderId && x.storeId == storeId)
        (setPaid oid pid now) db.orders
        = some (pre ++ setPaid oid pid now o :: post) := by
      rw [hsplit]
      apply updateFirst_append
      · intro x hx
        have := hpre x hx
        simp only [Bool.and_eq_false_iff, beq_eq_false_iff_ne]
        by_cases hxid : x.id = orderId
        · exact Or.inr (fun hxst => this ⟨hxid, hxst⟩)
        · exact Or.inl hxid
      · simp [hid, hst]
    rw [h1]
    exact ⟨rfl, rfl, rfl, rfl, rfl, rfl⟩

/-! ### Claims about order creation -/

lemma resolved_length_lt_of_dup (dbProducts : List Product) (storeId : String)
    (productIds : List String)
    (hnodup : (dbProducts.map Product.id).Nodup) (hdup : ¬productIds.Nodup) :
    (dbProducts.filter (fun p =>
        productIds.contains p.id && p.storeId == storeId && p.isActive)).length
      < productIds.length := by
  have h1 : ((dbProducts.filter (fun p =>
      productIds.contains p.id && p.storeId == storeId && p.isActive)).map
        Product.id).Nodup :=
    hnodup.sublist ((List.filter_sublist _).map _)
  have h2 : ((dbProducts.filter (fun p =>
      productIds.contains p.id && p.storeId == storeId && p.isActive)).map
        Product.id) ⊆ productIds.dedup := by
    intro x hx
    rw [List.mem_map] at hx
    obtain ⟨p, hp, rfl⟩ := hx
    rw [List.mem_filter] at hp
    have hc : productIds.contains p.id = true := by
      have := hp.2
      simp only [Bool.and_eq_true] at this
      exact this.1.1
    rw [List.mem_dedup]
    simpa using hc
  have h3 := (h1.subperm h2).length_le
  have h4 : productIds.dedup.length < productIds.length := by
    rcases Nat.lt_or_ge productIds.dedup.length productIds.length with hlt | hge
    · exact hlt
    · exfalso
      have hle := (List.dedup_sublist productIds).length_le
      have heq := (List.dedup_sublist productIds).eq_of_length (le_antisymm hle hge)
      exact hdup (heq ▸ List.nodup_dedup productIds)
  calc (dbProducts.filter (fun p =>
          productIds.contains p.id && p.storeId == storeId && p.isActive)).length
      = ((dbProducts.filter (fun p =>
          productIds.contains p.id && p.storeId == storeId && p.isActive)).map
            Product.id).length := (List.length_map _ _).symm
    _ ≤ productIds.dedup.length := h3
    _ < productIds.length := h4

/-- Counterexample for C1: a cart of two lines both referencing the
active product "p1" of store "s1".  The batch lookup resolves exactly as
many products as there are distinct ids (one), yet the handler rejects
the order with "One or more products not found", because the code
compares against the item count with multiplicity. -/
theorem createOrder_distinct_count_counterexample :
    ((dbW.products.filter (fun p =>
        (([⟨"p1", 1⟩, ⟨"p1", 2⟩] : List OrderReqItem).map
            OrderReqItem.productId).contains p.id
        && p.storeId == "s1" && p.isActive)).length
      = (([⟨"p1", 1⟩, ⟨"p1", 2⟩] : List OrderReqItem).map
          OrderReqItem.productId).dedup.length)
    ∧ createOrder dbW "s1" ⟨some [⟨"p1", 1⟩, ⟨"p1", 2⟩], none, none⟩ 0 "o1" "n1"
      = (.error ⟨400, "One or more products not found"⟩, dbW) := by decide

/-- C1 (corrected): against an active store and a non-empty items array,
createOrder is rejected with `InvalidArgument`
("One or more products not found") exactly when the batch-resolved
product count differs from the number of product ids counted WITH
multiplicity (the items array length); on rejection the database is
unchanged, so no Order is persisted; in particular, when product ids are
unique in the collection, a cart with repeated productIds is always
rejected even if all its items reference active products of the store. -/
theorem createOrder_missing_products_check
    (db : Db) (storeId : String) (body : OrderBody) (items : List OrderReqItem)
    (now : Nat) (newId onum : String)
    (hitems : body.items = some items) (hne : items ≠ [])
    (hstore : validateStoreAccess db storeId = true) :
    ((createOrder db storeId body now newId onum).1
        = .error ⟨400, "One or more products not found"⟩
      ↔ (db.products.filter (fun p =>
            (items.map OrderReqItem.productId).contains p.id
            && p.storeId == storeId && p.isActive)).length
          ≠ (items.map OrderReqItem.productId).length)
    ∧ ((createOrder db storeId body now newId onum).1
          = .error ⟨400, "One or more products not found"⟩ →
        (createOrder db storeId body now newId onum).2 = db)
    ∧ ((db.products.map Product.id).Nodup →
        ¬(items.map OrderReqItem.productId).Nodup →
        (createOrder db storeId body now newId onum).1
          = .error ⟨400, "One or more products not found"⟩) := by
  unfold createOrder
  rw [hitems]
  simp only []
  rw [if_neg (show ¬(items.isEmpty = true) by
    cases items
    · exact absurd rfl hne
    · simp)]
  rw [if_neg (by simp [hstore])]
  by_cases hlen : (db.products.filter (fun p =>
      (items.map (fun i => i.productId)).contains p.id
      && p.storeId == storeId && p.isActive)).length
      ≠ (items.map (fun i => i.productId)).length
  · rw [if_pos hlen]
    exact ⟨by simpa using hlen, fun _ => rfl, fun _ _ => rfl⟩
  · rw [if_neg hlen]
    rcases hb : buildOrderItems (db.products.filter (fun p =>
        (items.map (fun i => i.productId)).contains p.id
        && p.storeId == storeId && p.isActive)) items with e | pr
    · have he := buildOrderItems_error_eq hb
      simp only [hb]
      refine ⟨⟨fun hcontra => ?_, fun hR => absurd hR hlen⟩,
        fun hcontra => ?_, fun h1 h2 => ?_⟩
      · exact absurd (Except.error.inj hcontra) (by rw [he]; decide)
      · exact absurd (Except.error.inj hcontra) (by rw [he]; decide)
      · exact absurd (Nat.ne_of_lt
          (resolved_length_lt_of_dup db.products storeId _ h1 h2)) hlen
    · rcases pr with ⟨oi, ct⟩
      simp only [hb]
      refine ⟨⟨fun hcontra => absurd hcontra (by simp), fun hR => absurd hR hlen⟩,
        fun hcontra => absurd hcontra (by simp), fun h1 h2 => ?_⟩
      exact absurd (Nat.ne_of_lt
        (resolved_length_lt_of_dup db.products storeId _ h1 h2)) hlen

/-- Witness for C1 (amended): the duplicate cart of the counterexample is
rejected, obtained through the amended theorem's duplicate-cart clause. -/
theorem createOrder_missing_products_check_witness :
    (createOrder dbW "s1" ⟨some [⟨"p1", 1⟩, ⟨"p1", 2⟩], none, none⟩ 0 "o1" "n1").1
      = .error ⟨400, "One or more products not found"⟩ :=
  (createOrder_missing_products_check dbW "s1"
      ⟨some [⟨"p1", 1⟩, ⟨"p1", 2⟩], none, none⟩ [⟨"p1", 1⟩, ⟨"p1", 2⟩]
      0 "o1" "n1" rfl (by decide) (by decide)).2.2 (by decide) (by decide)

/-- C2 (confirmed): a successful createOrder with no caller-supplied
total persists an Order whose total is the sum over its items of
price × quantity, where every embedded item snapshots the price and name
of an active product of the store matching its productId, has
total = price × quantity, and carries the quantities and product ids of
the request cart. -/
theorem createOrder_total_invariant
    (db : Db) (storeId : String) (body : OrderBody) (now : Nat)
    (newId onum : String) (order : Order) (db' : Db)
    (h : createOrder db storeId body now newId onum = (.ok order, db'))
    (htotal : body.total = none) :
    order.total = (order.items.map (fun it => it.price * it.quantity)).sum
    ∧ (∀ it ∈ order.items, it.total = it.price * it.quantity
        ∧ ∃ p ∈ db.products, p.storeId = storeId ∧ p.isActive = true
            ∧ p.id = it.productId ∧ it.price = p.price ∧ it.productName = p.name)
    ∧ order.items.map OrderItem.quantity = (body.items.getD []).map OrderReqItem.quantity
    ∧ order.items.map OrderItem.productId = (body.items.getD []).map OrderReqItem.productId := by
  obtain ⟨items, oi, ct, hbi, hb, horder, hdb⟩ := createOrder_ok_elim h
  obtain ⟨s1, s2, s3, s4, s5⟩ := buildOrderItems_ok_spec hb
  subst horder
  refine ⟨?_, ?_, ?_, ?_⟩
  · show jsNumOr body.total ct = _
    rw [htotal]
    simpa [jsNumOr] using s1
  · intro it hit
    obtain ⟨ht, p, hfind, hprice, hname⟩ := s5 it hit
    have hmemf := List.mem_of_find?_eq_some hfind
    have hpred := List.find?_some hfind
    rw [List.mem_filter] at hmemf
    obtain ⟨hmem, hflt⟩ := hmemf
    simp only [Bool.and_eq_true, beq_iff_eq] at hflt
    have hid : p.id = it.productId := by simpa [beq_iff_eq] using hpred
    exact ⟨ht, p, hmem, hflt.1.2, hflt.2, hid, hprice, hname⟩
  · rw [hbi]
    simpa using s3
  · rw [hbi]
    simpa using s4

/-- Witness for C2: the cart of two Widgets at price 10 yields an order
whose stored total equals the sum of price × quantity over its items. -/
theorem createOrder_total_invariant_witness :
    orderW.total = (orderW.items.map (fun it => it.price * it.quantity)).sum :=
  (createOrder_total_invariant dbW "s1" ⟨some [⟨"p1", 2⟩], none, none⟩ 0 "o1" "n1"
    orderW dbW'
    (by norm_num [createOrder, validateStoreAccess, buildOrderItems, jsNumOr,
      dbW, prodW, storeA, orderW, dbW'])
    rfl).1

/-- Counterexample for C3: a caller-supplied total of 0 is falsy in the
source's `total || calculatedTotal`, so the persisted total is the
computed 20, not the supplied 0. -/
theorem createOrder_zero_total_counterexample :
    (createOrder dbW "s1" ⟨some [⟨"p1", 2⟩], none, some 0⟩ 0 "o1" "n1").1.toOption.map
        Order.total
      = some 20
    ∧ (20 : ℚ) ≠ 0 := by
  constructor
  · norm_num [createOrder, validateStoreAccess, buildOrderItems, jsNumOr,
      dbW, prodW, storeA, Except.toOption]
  · norm_num

/-- C3 (corrected): for a successful createOrder, the persisted total
equals the caller-supplied total whenever one is supplied and is
non-zero (truthy); when the total is absent — or supplied as the falsy
value 0 — the persisted total is the computed sum of the item totals. -/
theorem createOrder_total_override
    (db : Db) (storeId : String) (body : OrderBody) (now : Nat)
    (newId onum : String) (order : Order) (db' : Db)
    (h : createOrder db storeId body now newId onum = (.ok order, db')) :
    (∀ t, body.total = some t → t ≠ 0 → order.total = t)
    ∧ (body.total = none ∨ body.total = some 0 →
        order.total = (order.items.map OrderItem.total).sum) := by
  obtain ⟨items, oi, ct, hbi, hb, horder, hdb⟩ := createOrder_ok_elim h
  obtain ⟨s1, s2, s3, s4, s5⟩ := buildOrderItems_ok_spec hb
  subst horder
  constructor
  · intro t ht htne
    show jsNumOr body.total ct = t
    rw [ht]
    simp [jsNumOr, htne]
  · intro hcase
    show jsNumOr body.total ct = _
    rcases hcase with hc | hc <;> rw [hc] <;> simpa [jsNumOr] using s2

/-- Witness for C3 (amended): supplying the non-zero total 7 persists 7. -/
theorem createOrder_total_override_witness : orderW7.total = 7 :=
  (createOrder_total_override dbW "s1" ⟨some [⟨"p1", 2⟩], none, some 7⟩ 0 "o1" "n1"
    orderW7 dbW7'
    (by norm_num [createOrder, validateStoreAccess, buildOrderItems, jsNumOr,
      dbW, prodW, storeA, orderW, orderW7, dbW7'])).1
    7 rfl (by norm_num)

lemma createOrder_error_indep
    (db : Db) (storeId : String) (its : Option (List OrderReqItem)) (t : Option ℚ)
    (c₁ c₂ : Option CustomerInfo) (now : Nat) (newId onum : String)
    (e : ErrorResponse) :
    (createOrder db storeId ⟨its, c₁, t⟩ now newId onum).1 = .error e →
    (createOrder db storeId ⟨its, c₂, t⟩ now newId onum).1 = .error e := by
  rcases its with _ | l
  · intro h
    simpa [createOrder] using h
  · unfold createOrder
    simp only []
    split
    · exact id
    · split
      · exact id
      · split
        · exact id
        · rcases hb : buildOrderItems (db.products.filter (fun p =>
              (l.map (fun i => i.productId)).contains p.id
              && p.storeId == storeId && p.isActive)) l with e' | pr
          · simp only [hb]
            exact id
          · rcases pr with ⟨oi, ct⟩
            simp only [hb]
            exact fun hcontra => absurd hcontra (by simp)

/-- C9 (confirmed): every persisted order has a customerInfo field — an
omitted or falsy customerInfo is stored as the empty object — and the
handler never validates customerInfo: the error outcome of createOrder
is the same for every customerInfo value, and a supplied object is
stored verbatim. -/
theorem createOrder_customerInfo_default
    (db : Db) (storeId : String) (its : Option (List OrderReqItem)) (t : Option ℚ)
    (c : Option CustomerInfo) (now : Nat) (newId onum : String) :
    (∀ e, (createOrder db storeId ⟨its, c, t⟩ now newId onum).1 = .error e
        ↔ (createOrder db storeId ⟨its, none, t⟩ now newId onum).1 = .error e)
    ∧ (∀ o, (createOrder db storeId ⟨its, none, t⟩ now newId onum).1 = .ok o →
        o.customerInfo = { name := none, email := none, phone := none })
    ∧ (∀ o ci, (createOrder db storeId ⟨its, some ci, t⟩ now newId onum).1 = .ok o →
        o.customerInfo = ci) := by
  refine ⟨fun e => ⟨createOrder_error_indep db storeId its t c none now newId onum e,
      createOrder_error_indep db storeId its t none c now newId onum e⟩, ?_, ?_⟩
  · intro o ho
    have hfull : createOrder db storeId ⟨its, none, t⟩ now newId onum
        = (.ok o, (createOrder db storeId ⟨its, none, t⟩ now newId onum).2) := by
      rw [← ho]
    obtain ⟨items, oi, ct, hbi, hb, horder, _⟩ := createOrder_ok_elim hfull
    rw [horder]
    rfl
  · intro o ci ho
    have hfull : createOrder db storeId ⟨its, some ci, t⟩ now newId onum
        = (.ok o, (createOrder db storeId ⟨its, some ci, t⟩ now newId onum).2) := by
      rw [← ho]
    obtain ⟨items, oi, ct, hbi, hb, horder, _⟩ := createOrder_ok_elim hfull
    rw [horder]
    rfl

/-- Witness for C9: the successful order of the C2 witness, created with
customerInfo omitted, stores the empty customer-info object. -/
theorem createOrder_customerInfo_default_witness :
    orderW.customerInfo = { name := none, email := none, phone := none } :=
  (createOrder_customerInfo_default dbW "s1" (some [⟨"p1", 2⟩]) none none 0 "o1" "n1").2.1
    orderW
    (by norm_num [createOrder, validateStoreAccess, buildOrderItems, jsNumOr,
      dbW, prodW, storeA, orderW])

/-- Witness for C5: a matching signature flips the single stored order
to paid/completed with the gateway identifiers recorded. -/
theorem verifyPayment_valid_signature_marks_paid_witness :
    verifyPayment (fun _ _ => "h") "k" dbOrder (some "a") (some "b") (some "h")
        "o1" "s1" 7
      = (.ok (), { dbOrder with orders := [setPaid "a" "b" 7 orderPending] })
    ∧ (setPaid "a" "b" 7 orderPending).status = "paid"
    ∧ (setPaid "a" "b" 7 orderPending).paymentStatus = some "completed" := by
  have h := (verifyPayment_valid_signature_marks_paid (fun _ _ => "h") "k" dbOrder
      "a" "b" "o1" "s1" 7 (by decide) (by decide) (by decide)).2
      [] orderPending [] rfl (by simp) rfl rfl
  exact ⟨h.1, h.2.1, h.2.2.1⟩

/-! ### Claims about the analytics summary -/

/-- C7 (confirmed): for an existing store's analytics report, the
conversion rate is 0 when no order falls in the window (no division
occurs), and otherwise equals completedOrders / totalOrders × 100
rendered to one decimal place, where totalOrders counts the window-scoped
orders of the store and completedOrders those with status "paid" or
"completed". -/
theorem computeAnalyticsSummary_conversionRate
    (db : Db) (storeId : String) (startDate : Nat) (s : AnalyticsSummary)
    (h : computeAnalyticsSummary db storeId startDate = .ok s) :
    (s.totalOrders = 0 → s.conversionRate = 0)
    ∧ (0 < s.totalOrders →
        s.conversionRate
          = jsToFixed1 (((s.completedOrders : ℚ) / (s.totalOrders : ℚ)) * 100))
    ∧ s.totalOrders = db.orders.countP (fun o =>
        o.storeId == storeId && decide (startDate ≤ o.createdAt))
    ∧ s.completedOrders = db.orders.countP (fun o =>
        (o.storeId == storeId && decide (startDate ≤ o.createdAt))
        && (o.status == "paid" || o.status == "completed")) := by
  unfold computeAnalyticsSummary at h
  by_cases hv : (!validateStoreAccess db storeId) = true
  · rw [if_pos hv] at h
    simp at h
  · rw [if_neg hv] at h
    simp only [] at h
    obtain hs := (Except.ok.inj h).symm
    subst hs
    refine ⟨?_, ?_, ?_, ?_⟩
    · intro h0
      show (if 0 < (db.orders.filter _).length then _ else (0 : ℚ)) = 0
      rw [if_neg]
      simpa using h0
    · intro hpos
      show (if 0 < (db.orders.filter _).length then _ else (0 : ℚ)) = _
      rw [if_pos (by simpa using hpos)]
    · exact (List.countP_eq_length_filter _ _).symm
    · rw [List.countP_eq_length_filter]
      rfl

/-- Witness for C7 at the store with no orders: the summary is all zeros
and in particular the conversion rate is 0 rather than a division
error. -/
theorem computeAnalyticsSummary_conversionRate_witness :
    (computeAnalyticsSummary dbA "s1" 0).toOption.map AnalyticsSummary.conversionRate
      = some 0 := by
  have h := (computeAnalyticsSummary_conversionRate dbA "s1" 0
      ⟨0, 0, 0, 0, 0, 0⟩ (by decide)).1 rfl
  rw [show computeAnalyticsSummary dbA "s1" 0 = .ok ⟨0, 0, 0, 0, 0, 0⟩ from by decide]
  exact congrArg some h

end ShopifyClone
